import Mathlib

/-!
Shallow embedding of `src/src/DiseasePrediction.jsx` (the only source file of
the Skin-Disease-Detection repository) and proofs about its image-acquisition
and prediction-request lifecycle.

Modelling conventions:
* React `useState` variables become fields of an explicit state record
  (`AppState` for the main `DiseasePrediction` component, `CameraWorld` for
  the `CameraView` component together with the media tracks it acquired).
* Each event handler becomes a function on that record.  `setX(v)` is a
  field update; React's batching is irrelevant here because every claim is
  about the state after a handler (or at an `await` suspension point), and
  within one handler the writes are to distinct fields.
* JavaScript `null` stored in a state variable is modelled by `Option.none`
  for string-valued state, and by `Js.null` for the JSON-valued
  `predictionResult` state (`useState(null)` initialises it to `null`, and a
  parsed response body can itself be `null`).
* The behaviour of the external world (the network, the camera permission
  prompt, the user's choice inside the camera view) is passed in as an
  explicit parameter, so a handler is a pure function
  `environment → state → state` and its network side effects are returned as
  data (`PredictRun.requests`).
-/

/-- JSON values, as produced by `apiResponse.json()` (line 146 of the source).
`JSON.parse` can yield `null`, booleans, numbers, strings, arrays and
objects; numbers are modelled as integers (the spec's canned response uses
`confidence: 87`). -/
inductive Js where
  | null : Js
  | bool : Bool → Js
  | num : Int → Js
  | str : String → Js
  | arr : List Js → Js
  | obj : List (String × Js) → Js
deriving Repr

/-- Truthiness of the `predictionResult` state as far as absence is concerned:
`useState(null)` initialises it to `null`, and the renderer treats `null` as
"no result".  `jsIsNull r = true` models "PredictionResult is absent". -/
def jsIsNull : Js → Bool
  | Js.null => true
  | _ => false

/-- State of the main `DiseasePrediction` component (source lines 96-101):
the five `useState` variables plus the `value` of the hidden file input
reached through `fileInputRef` (`none` models a `null` ref, i.e. the input
not being mounted). -/
structure AppState where
  predictionResult : Js
  isLoading : Bool
  imageSrc : Option String
  isCameraOpen : Bool
  error : Option String
  fileInput : Option String
deriving Repr

/-- Initial state: `useState(null)` / `useState(false)` on lines 96-100, and
the hidden file input mounted with an empty value. -/
def initialState : AppState :=
  { predictionResult := Js.null, isLoading := false, imageSrc := none,
    isCameraOpen := false, error := none, fileInput := some "" }

/-- The spec's RequestState enumeration {Idle, Loading, Succeeded, Failed},
which it says is "implicit in boolean/error flags" (spec section 3). -/
inductive RequestState where
  | Idle | Loading | Succeeded | Failed
deriving Repr, DecidableEq

/-- Derivation of the implicit RequestState from the flags, following the
spec: Loading while `isLoading`; Failed while an error message is present;
Succeeded while a (non-null) PredictionResult is present; Idle otherwise. -/
def AppState.requestState (s : AppState) : RequestState :=
  if s.isLoading then RequestState.Loading
  else if s.error.isSome then RequestState.Failed
  else if jsIsNull s.predictionResult then RequestState.Idle
  else RequestState.Succeeded

/-- Standard base64 alphabet, used to model the platform's data-URI
encoders (`FileReader.readAsDataURL`, `canvas.toDataURL`), which are
external collaborators in the spec's sense. -/
def base64Alphabet : String :=
  "ABCDEFGHIJKLMNOPQRSTUVWXYZabcdefghijklmnopqrstuvwxyz0123456789+/"

/-- Character of the base64 alphabet at index `n` (0 ≤ n < 64). -/
def base64Char (n : Nat) : Char := base64Alphabet.toList.getD n 'A'

/-- Base64 encoding of a byte sequence (bytes as `Nat`s, reduced mod 256). -/
def base64Encode : List Nat → String
  | [] => ""
  | [a] =>
      String.mk [base64Char (a % 256 / 4), base64Char (a % 256 % 4 * 16), '=', '=']
  | [a, b] =>
      String.mk [base64Char (a % 256 / 4),
        base64Char (a % 256 % 4 * 16 + b % 256 / 16),
        base64Char (b % 256 % 16 * 4), '=']
  | a :: b :: c :: rest =>
      String.mk [base64Char (a % 256 / 4),
        base64Char (a % 256 % 4 * 16 + b % 256 / 16),
        base64Char (b % 256 % 16 * 4 + c % 256 / 64),
        base64Char (c % 256 % 64)] ++ base64Encode rest

/-- A file chosen in the file picker: name, MIME type, content bytes. -/
structure JsFile where
  name : String
  mime : String
  bytes : List Nat
deriving Repr, DecidableEq

/-- Model of `FileReader.readAsDataURL` (source line 111): the data URI a
successful read delivers to the `onload` handler. -/
def fileDataURL (f : JsFile) : String :=
  "data:" ++ f.mime ++ ";base64," ++ base64Encode f.bytes

/-- Model of `canvas.toDataURL('image/jpeg')` (source line 37): the JPEG data
URI of the captured video frame (frame given by its encoded bytes). -/
def canvasToDataURL (frame : List Nat) : String :=
  "data:image/jpeg;base64," ++ base64Encode frame

/-- Handler `handleImageChange` (source lines 103-113): if the file list is
non-empty, read the first file as a data URI; the `onload` callback stores it
in `imageSrc` and clears `predictionResult` and `error`.  With an empty file
list nothing happens. -/
def handleImageChange (files : List JsFile) (s : AppState) : AppState :=
  match files with
  | [] => s
  | f :: _ =>
      { s with imageSrc := some (fileDataURL f), predictionResult := Js.null,
               error := none }

/-- Handler `handleCameraCapture` (source lines 115-119): stores the captured
data URI in `imageSrc` and clears `predictionResult` and `error`. -/
def handleCameraCapture (imageData : String) (s : AppState) : AppState :=
  { s with imageSrc := some imageData, predictionResult := Js.null,
           error := none }

/-- Handler `handleClear` (source lines 157-164): nulls `imageSrc`,
`predictionResult` and `error`, and sets the file input's value to `""` when
the ref is non-null. -/
def handleClear (s : AppState) : AppState :=
  { s with imageSrc := none, predictionResult := Js.null, error := none,
           fileInput := s.fileInput.map (fun _ => "") }

/-- An HTTP request the component issues: URL, method, and the multipart
form fields as (field name, filename, content) triples.  A blob built from a
data URI is identified with that data URI (the bytes it decodes to). -/
structure HttpRequest where
  url : String
  method : String
  formFields : List (String × String × String)
deriving Repr, DecidableEq

/-- Behaviour of the backend on the single POST that `handlePredict` issues:
either the fetch promise rejects (network failure), or a response arrives
with a status and a body whose JSON parse either succeeds or fails. -/
inductive PredictOutcome where
  | netError : PredictOutcome
  | response : Nat → Except String Js → PredictOutcome
deriving Repr

/-- `Response.ok` of the Fetch API: status in the range 200-299
(source line 142 checks `!apiResponse.ok`). -/
def statusOk (status : Nat) : Bool := 200 ≤ status && status ≤ 299

/-- The single fixed user-facing error message set on every failure path
(source line 151). -/
def predictErrorMsg : String :=
  "Error predicting disease. Please try again. Make sure the backend server is running."

/-- State after the first three statements of `handlePredict` (source lines
123-125): loading, result and error cleared. -/
def loadingState (s : AppState) : AppState :=
  { s with isLoading := true, predictionResult := Js.null, error := none }

/-- State after `setPredictionResult(data)` (line 147) followed by the
`finally` block's `setIsLoading(false)` (line 153). -/
def doneSuccess (s1 : AppState) (data : Js) : AppState :=
  { s1 with predictionResult := data, isLoading := false }

/-- State after the `catch` block's `setError(...)` (line 151) followed by
the `finally` block's `setIsLoading(false)` (line 153). -/
def doneFailure (s1 : AppState) : AppState :=
  { s1 with error := some predictErrorMsg, isLoading := false }

/-- The POST built on source lines 133-140: endpoint
`http://localhost:8000/predict`, one form field appended as
`formData.append("file", blob, "skin_image.jpg")`, the blob being the decoded
current data URI. -/
def predictRequest (src : String) : HttpRequest :=
  { url := "http://localhost:8000/predict", method := "POST",
    formFields := [("file", "skin_image.jpg", src)] }

/-- One run of the async handler `handlePredict`: the state when it has
completed, the HTTP requests it issued, and the component state at each
`await` suspension point, in order. -/
structure PredictRun where
  finalState : AppState
  requests : List HttpRequest
  awaitStates : List AppState
deriving Repr

/-- Handler `handlePredict` (source lines 121-155), as a function of the
backend's behaviour.  `if (!imageSrc) return;` (line 122) makes the run a
no-op when `imageSrc` is `null` (or the falsy empty string).  Otherwise the
state becomes `loadingState s`; the awaits at `fetch(imageSrc)`,
`response.blob()` and `fetch(POST)` all suspend in that state, as does the
await at `apiResponse.json()` reached only when the response is ok.  A
non-ok status throws before `json()`; any throw is caught and sets the fixed
error message; `finally` clears the loading flag on every path. -/
def handlePredict (o : PredictOutcome) (s : AppState) : PredictRun :=
  match s.imageSrc with
  | none => ⟨s, [], []⟩
  | some src =>
      if src = "" then ⟨s, [], []⟩
      else
        let s1 := loadingState s
        match o with
        | PredictOutcome.netError =>
            ⟨doneFailure s1, [predictRequest src], [s1, s1, s1]⟩
        | PredictOutcome.response st body =>
            if statusOk st then
              match body with
              | Except.ok data =>
                  ⟨doneSuccess s1 data, [predictRequest src], [s1, s1, s1, s1]⟩
              | Except.error _ =>
                  ⟨doneFailure s1, [predictRequest src], [s1, s1, s1, s1]⟩
            else
              ⟨doneFailure s1, [predictRequest src], [s1, s1, s1]⟩

/-- Result of `navigator.mediaDevices.getUserMedia({video: {facingMode:
'environment'}})` (source line 11): either a media stream, given by the list
of ids of its tracks, or a thrown permission/access error. -/
inductive GumResult where
  | ok : List Nat → GumResult
  | err : GumResult
deriving Repr, DecidableEq

/-- What the user does once the camera view is showing: click "Capture
Photo" (with the current video frame) or click "Close Camera". -/
inductive CameraAction where
  | capture : List Nat → CameraAction
  | cancel : CameraAction
deriving Repr, DecidableEq

/-- State of one `CameraView` session (source lines 4-54) together with the
hardware tracks it touched.

`cleanupCaptured` is the value of the `stream` state variable that the
`useEffect` cleanup closure (source lines 25-29) closed over.  The effect has
an empty dependency array (line 30), so it runs exactly once, after the first
render, when `stream` is still its initial `null`; `setStream(mediaStream)`
(line 12) re-renders the component but does not re-register the effect, so
the cleanup closure keeps the first render's `null`. -/
structure CameraWorld where
  stream : Option (List Nat)
  cleanupCaptured : Option (List Nat)
  acquiredTracks : List Nat
  stoppedTracks : List Nat
  alerts : Nat
  viewOpen : Bool
  captures : List String
deriving Repr, DecidableEq

/-- The `useEffect` cleanup (source lines 25-29), run when the view
unmounts: `if (stream) stream.getTracks().forEach(track => track.stop())`,
where `stream` is the closed-over `cleanupCaptured` value.  Unmounting also
means the view is no longer shown. -/
def cameraCleanup (w : CameraWorld) : CameraWorld :=
  match w.cleanupCaptured with
  | some ids => { w with stoppedTracks := w.stoppedTracks ++ ids, viewOpen := false }
  | none => { w with viewOpen := false }

/-- State right after a successful mount of `CameraView`: `getUserMedia`
resolved with a stream, `setStream` stored it, and the effect's cleanup
closure captured the first render's `stream = null`. -/
def cameraMountOk (ids : List Nat) : CameraWorld :=
  { stream := some ids, cleanupCaptured := none, acquiredTracks := ids,
    stoppedTracks := [], alerts := 0, viewOpen := true, captures := [] }

/-- A whole `CameraView` session, from mount to unmount.  On a `getUserMedia`
error the catch block (source lines 16-20) raises one alert and calls
`onClose()`, which unmounts the view before the user can act.  On success
the user either captures — `handleCapture` (lines 32-39) calls
`onCapture(canvas.toDataURL('image/jpeg'))` then `onClose()` — or cancels via
the "Close Camera" button, which calls `onClose()`; either way the unmount
runs the effect cleanup. -/
def cameraSession (gum : GumResult) (act : CameraAction) : CameraWorld :=
  match gum with
  | GumResult.err =>
      cameraCleanup
        { stream := none, cleanupCaptured := none, acquiredTracks := [],
          stoppedTracks := [], alerts := 1, viewOpen := true, captures := [] }
  | GumResult.ok ids =>
      match act with
      | CameraAction.capture frame =>
          cameraCleanup
            { cameraMountOk ids with captures := [canvasToDataURL frame] }
      | CameraAction.cancel => cameraCleanup (cameraMountOk ids)

/-- A track of the session's stream is still live (active) afterward when it
was acquired but never stopped. -/
def CameraWorld.liveTracks (w : CameraWorld) : List Nat :=
  w.acquiredTracks.filter (fun id => ¬ id ∈ w.stoppedTracks)

/-- Sample state with an image acquired: a small PNG data URI is present,
nothing else set. -/
def sImg : AppState := { initialState with imageSrc := some "data:image/png;base64,AQID" }

/-- The spec's canned successful response body
`{prediction:"Eczema", confidence:87, description:"...", precautions:[...]}`. -/
def sampleBody : Js :=
  Js.obj [("prediction", Js.str "Eczema"), ("confidence", Js.num 87),
    ("description", Js.str "A condition making skin red and itchy."),
    ("precautions", Js.arr [Js.str "See a dermatologist", Js.str "Avoid allergens"])]

/-- An outcome on which `handlePredict` takes the catch path: the POST
rejects, the status is not ok, or the body fails to parse as JSON. -/
def failingOutcome : PredictOutcome → Bool
  | PredictOutcome.netError => true
  | PredictOutcome.response st (Except.ok _) => !statusOk st
  | PredictOutcome.response _ (Except.error _) => true

/-- An outcome on which `handlePredict` succeeds but the parsed body is the
JSON value `null`, so `setPredictionResult(null)` stores the absent value. -/
def nullBodySuccess : PredictOutcome → Bool
  | PredictOutcome.response st (Except.ok Js.null) => statusOk st
  | _ => false

/-- C4: with no AcquiredImage present (`imageSrc` is `null`), `handlePredict`
is a no-op: the final state is the starting state unchanged, no HTTP request
is issued, and the handler never suspends. -/
theorem C4_predict_noop_without_image (o : PredictOutcome) (s : AppState)
    (h : s.imageSrc = none) : handlePredict o s = ⟨s, [], []⟩ := by
  simp [handlePredict, h]

/-- Witness for C4 at the initial state with a network-error environment. -/
theorem C4_predict_noop_witness :
    initialState.imageSrc = none ∧
      handlePredict PredictOutcome.netError initialState = ⟨initialState, [], []⟩ :=
  ⟨rfl, C4_predict_noop_without_image PredictOutcome.netError initialState rfl⟩

/-- C5: any new acquisition — a successful selection of a file `f`, or a
camera capture of a frame — makes AcquiredImage the data-URI encoding of the
new image and clears both the prior PredictionResult and the prior error. -/
theorem C5_acquisition_sets_data_uri_and_clears (f : JsFile) (rest : List JsFile)
    (frame : List Nat) (s t : AppState) :
    (handleImageChange (f :: rest) s).imageSrc = some (fileDataURL f) ∧
    (handleImageChange (f :: rest) s).predictionResult = Js.null ∧
    (handleImageChange (f :: rest) s).error = none ∧
    (handleCameraCapture (canvasToDataURL frame) t).imageSrc
      = some (canvasToDataURL frame) ∧
    (handleCameraCapture (canvasToDataURL frame) t).predictionResult = Js.null ∧
    (handleCameraCapture (canvasToDataURL frame) t).error = none :=
  ⟨rfl, rfl, rfl, rfl, rfl, rfl⟩

/-- C8: from any starting state, `handleClear` empties AcquiredImage,
PredictionResult and error; the file-selection control, when mounted, is
reset to the empty value (it stays absent when not mounted); and clearing is
idempotent. -/
theorem C8_clear_resets_and_is_idempotent (s : AppState) :
    (handleClear s).imageSrc = none ∧
    (handleClear s).predictionResult = Js.null ∧
    (handleClear s).error = none ∧
    (handleClear s).fileInput.isSome = s.fileInput.isSome ∧
    ((handleClear s).fileInput = none ∨ (handleClear s).fileInput = some "") ∧
    handleClear (handleClear s) = handleClear s := by
  cases s with
  | mk pr il im ic er fi => cases fi <;> simp [handleClear]

/-- C9: when `getUserMedia` fails, the session raises exactly one alert,
never invokes the acquisition callback `onCapture`, closes the camera view,
and leaves no live media tracks (none were ever acquired). -/
theorem C9_permission_error_alerts_and_closes (act : CameraAction) :
    (cameraSession GumResult.err act).alerts = 1 ∧
    (cameraSession GumResult.err act).captures = [] ∧
    (cameraSession GumResult.err act).viewOpen = false ∧
    (cameraSession GumResult.err act).liveTracks = [] :=
  ⟨rfl, rfl, rfl, rfl⟩

/-- C1: evaluating the camera session at the failing input — `getUserMedia`
succeeds with a one-track stream (track 0) and the user captures a frame —
shows the view closed and the capture delivered, yet `track.stop()` was
never called: track 0 is still live, because the effect cleanup's closed-over
`stream` is the first render's `null`.  The same leak occurs on cancel. -/
theorem C1_capture_leaves_live_tracks :
    (cameraSession (GumResult.ok [0]) (CameraAction.capture [1])).viewOpen = false ∧
    (cameraSession (GumResult.ok [0]) (CameraAction.capture [1])).captures
      = [canvasToDataURL [1]] ∧
    (cameraSession (GumResult.ok [0]) (CameraAction.capture [1])).stoppedTracks = [] ∧
    (cameraSession (GumResult.ok [0]) (CameraAction.capture [1])).liveTracks = [0] ∧
    (cameraSession (GumResult.ok [0]) CameraAction.cancel).liveTracks = [0] :=
  ⟨rfl, rfl, rfl, rfl, rfl⟩

/-- Every state at an `await` suspension point of a `handlePredict` run is
the post-`setIsLoading(true)` state with result and error cleared. -/
theorem mem_awaitStates_eq_loadingState (o : PredictOutcome) (s : AppState)
    (st : AppState) (h : st ∈ (handlePredict o s).awaitStates) :
    st = loadingState s := by
  rcases hs : s.imageSrc with _ | src
  · simp [handlePredict, hs] at h
  · by_cases hne : src = ""
    · simp [handlePredict, hs, hne] at h
    · rcases o with _ | ⟨stt, body⟩
      · simp [handlePredict, hs, hne] at h
        exact h
      · by_cases hok : statusOk stt
        · rcases body with e | data <;>
            simp [handlePredict, hs, hne, hok] at h <;> exact h
        · simp [handlePredict, hs, hne, hok] at h
          exact h

/-- C10: at every `await` suspension point inside a `handlePredict` run the
Loading flag is true and both PredictionResult and error are absent — the
in-flight state never carries a stale result or a stale error. -/
theorem C10_inflight_no_result_no_error (o : PredictOutcome) (s : AppState)
    (st : AppState) (h : st ∈ (handlePredict o s).awaitStates) :
    st.isLoading = true ∧ st.predictionResult = Js.null ∧ st.error = none := by
  rw [mem_awaitStates_eq_loadingState o s st h]
  exact ⟨rfl, rfl, rfl⟩

/-- Witness for C10: the state at the first await of a run from `sImg`. -/
theorem C10_inflight_witness :
    loadingState sImg ∈ (handlePredict PredictOutcome.netError sImg).awaitStates ∧
    ((loadingState sImg).isLoading = true ∧
      (loadingState sImg).predictionResult = Js.null ∧
      (loadingState sImg).error = none) := by
  have hmem : loadingState sImg ∈ (handlePredict PredictOutcome.netError sImg).awaitStates := by
    have e : (handlePredict PredictOutcome.netError sImg).awaitStates
        = [loadingState sImg, loadingState sImg, loadingState sImg] := rfl
    rw [e]; exact List.mem_cons_self _ _
  exact ⟨hmem, C10_inflight_no_result_no_error PredictOutcome.netError sImg
    (loadingState sImg) hmem⟩

/-- C2 (amended): a `handlePredict` run with an AcquiredImage present ends
with the Loading flag false, and with exactly one of PredictionResult and
error set — except that a success whose body parses to JSON `null` stores
`null` and therefore ends with neither set. -/
theorem C2_terminal_exclusive (o : PredictOutcome) (s : AppState) (src : String)
    (him : s.imageSrc = some src) (hne : src ≠ "") :
    (handlePredict o s).finalState.isLoading = false ∧
    ((jsIsNull (handlePredict o s).finalState.predictionResult = false ∧
        (handlePredict o s).finalState.error = none) ∨
      (jsIsNull (handlePredict o s).finalState.predictionResult = true ∧
        (handlePredict o s).finalState.error.isSome = true) ∨
      (nullBodySuccess o = true ∧
        jsIsNull (handlePredict o s).finalState.predictionResult = true ∧
        (handlePredict o s).finalState.error = none)) := by
  rcases o with _ | ⟨stt, body⟩
  · simp [handlePredict, him, hne, doneFailure, loadingState, jsIsNull]
  · by_cases hok : statusOk stt
    · rcases body with e | data
      · simp [handlePredict, him, hne, hok, doneFailure, loadingState, jsIsNull]
      · rcases data <;>
          simp [handlePredict, him, hne, hok, doneSuccess, loadingState,
            jsIsNull, nullBodySuccess]
    · simp [handlePredict, him, hne, hok, doneFailure, loadingState, jsIsNull]

/-- Witness for C2 at a successful run with the canned Eczema body. -/
theorem C2_terminal_witness :
    sImg.imageSrc = some "data:image/png;base64,AQID" ∧
    "data:image/png;base64,AQID" ≠ "" ∧
    ((handlePredict (PredictOutcome.response 200 (Except.ok sampleBody)) sImg).finalState.isLoading = false ∧
    ((jsIsNull (handlePredict (PredictOutcome.response 200 (Except.ok sampleBody)) sImg).finalState.predictionResult = false ∧
        (handlePredict (PredictOutcome.response 200 (Except.ok sampleBody)) sImg).finalState.error = none) ∨
      (jsIsNull (handlePredict (PredictOutcome.response 200 (Except.ok sampleBody)) sImg).finalState.predictionResult = true ∧
        (handlePredict (PredictOutcome.response 200 (Except.ok sampleBody)) sImg).finalState.error.isSome = true) ∨
      (nullBodySuccess (PredictOutcome.response 200 (Except.ok sampleBody)) = true ∧
        jsIsNull (handlePredict (PredictOutcome.response 200 (Except.ok sampleBody)) sImg).finalState.predictionResult = true ∧
        (handlePredict (PredictOutcome.response 200 (Except.ok sampleBody)) sImg).finalState.error = none))) :=
  ⟨rfl, by decide,
    C2_terminal_exclusive (PredictOutcome.response 200 (Except.ok sampleBody)) sImg
      "data:image/png;base64,AQID" rfl (by decide)⟩

/-- C2 counterexample: the backend answers 200 with the JSON body `null`;
the run completes (image present, Loading false) with PredictionResult
absent AND error absent — "never neither" fails. -/
theorem C2_counterexample_null_body :
    sImg.imageSrc = some "data:image/png;base64,AQID" ∧
    (handlePredict (PredictOutcome.response 200 (Except.ok Js.null)) sImg).finalState.isLoading = false ∧
    jsIsNull (handlePredict (PredictOutcome.response 200 (Except.ok Js.null)) sImg).finalState.predictionResult = true ∧
    (handlePredict (PredictOutcome.response 200 (Except.ok Js.null)) sImg).finalState.error = none :=
  ⟨rfl, rfl, rfl, rfl⟩

/-- C3 (amended): a `handlePredict` run with an AcquiredImage present issues
exactly one HTTP POST, to the fixed endpoint `http://localhost:8000/predict`,
whose multipart body has a single field; the field is named `file` and
carries the image blob under the filename `skin_image.jpg`. -/
theorem C3_single_post_to_endpoint (o : PredictOutcome) (s : AppState) (src : String)
    (him : s.imageSrc = some src) (hne : src ≠ "") :
    (handlePredict o s).requests
      = [{ url := "http://localhost:8000/predict", method := "POST",
           formFields := [("file", "skin_image.jpg", src)] }] := by
  rcases o with _ | ⟨stt, body⟩
  · simp [handlePredict, him, hne, predictRequest]
  · by_cases hok : statusOk stt
    · rcases body with e | data <;> simp [handlePredict, him, hne, hok, predictRequest]
    · simp [handlePredict, him, hne, hok, predictRequest]

/-- Witness for C3 at a concrete run from `sImg`. -/
theorem C3_single_post_witness :
    sImg.imageSrc = some "data:image/png;base64,AQID" ∧
    "data:image/png;base64,AQID" ≠ "" ∧
    (handlePredict PredictOutcome.netError sImg).requests
      = [{ url := "http://localhost:8000/predict", method := "POST",
           formFields := [("file", "skin_image.jpg", "data:image/png;base64,AQID")] }] :=
  ⟨rfl, by decide,
    C3_single_post_to_endpoint PredictOutcome.netError sImg
      "data:image/png;base64,AQID" rfl (by decide)⟩

/-- C3 counterexample: in the one request a run issues, the single form
field is named `file` — `formData.append("file", blob, "skin_image.jpg")` —
not `skin_image.jpg`, which is only the filename of the appended blob. -/
theorem C3_counterexample_field_name :
    (handlePredict PredictOutcome.netError sImg).requests.map
        (fun r => r.formFields.map (fun fld => fld.1)) = [["file"]] ∧
    ("file" : String) ≠ "skin_image.jpg" :=
  ⟨rfl, by decide⟩

/-- C6: on every failing run with an AcquiredImage present — POST rejected,
non-2xx status, or unparsable body — the error becomes the single fixed
non-empty message (it tells the user to make sure the backend server is
running), PredictionResult is absent, and the derived RequestState is
Failed. -/
theorem C6_failure_sets_generic_error (o : PredictOutcome) (s : AppState) (src : String)
    (him : s.imageSrc = some src) (hne : src ≠ "")
    (hfail : failingOutcome o = true) :
    (handlePredict o s).finalState.error = some predictErrorMsg ∧
    predictErrorMsg ≠ "" ∧
    jsIsNull (handlePredict o s).finalState.predictionResult = true ∧
    (handlePredict o s).finalState.requestState = RequestState.Failed := by
  rcases o with _ | ⟨stt, body⟩
  · refine ⟨?_, by decide, ?_, ?_⟩ <;>
      simp [handlePredict, him, hne, doneFailure, loadingState, jsIsNull,
        AppState.requestState]
  · rcases body with e | data
    · by_cases hok : statusOk stt <;> refine ⟨?_, by decide, ?_, ?_⟩ <;>
        simp [handlePredict, him, hne, hok, doneFailure, loadingState, jsIsNull,
          AppState.requestState]
    · have hok : statusOk stt = false := by simpa [failingOutcome] using hfail
      refine ⟨?_, by decide, ?_, ?_⟩ <;>
        simp [handlePredict, him, hne, hok, doneFailure, loadingState, jsIsNull,
          AppState.requestState]

/-- Witness for C6 at a 500 response from `sImg`. -/
theorem C6_failure_witness :
    sImg.imageSrc = some "data:image/png;base64,AQID" ∧
    "data:image/png;base64,AQID" ≠ "" ∧
    failingOutcome (PredictOutcome.response 500 (Except.ok sampleBody)) = true ∧
    ((handlePredict (PredictOutcome.response 500 (Except.ok sampleBody)) sImg).finalState.error = some predictErrorMsg ∧
    predictErrorMsg ≠ "" ∧
    jsIsNull (handlePredict (PredictOutcome.response 500 (Except.ok sampleBody)) sImg).finalState.predictionResult = true ∧
    (handlePredict (PredictOutcome.response 500 (Except.ok sampleBody)) sImg).finalState.requestState = RequestState.Failed) :=
  ⟨rfl, by decide, rfl,
    C6_failure_sets_generic_error (PredictOutcome.response 500 (Except.ok sampleBody))
      sImg "data:image/png;base64,AQID" rfl (by decide) rfl⟩

/-- C7 (amended): on every successful run (ok status, body parses as JSON)
whose parsed body is not JSON `null`, the parsed body is stored as the
PredictionResult, the error is absent, the Loading flag is false, and the
derived RequestState is Succeeded.  (A body parsing to `null` is also
stored, but `null` is the absent value, so the state returns to Idle.) -/
theorem C7_success_stores_parsed_body (s : AppState) (src : String) (stt : Nat)
    (data : Js) (him : s.imageSrc = some src) (hne : src ≠ "")
    (hok : statusOk stt = true) (hdata : jsIsNull data = false) :
    (handlePredict (PredictOutcome.response stt (Except.ok data)) s).finalState.predictionResult = data ∧
    (handlePredict (PredictOutcome.response stt (Except.ok data)) s).finalState.error = none ∧
    (handlePredict (PredictOutcome.response stt (Except.ok data)) s).finalState.isLoading = false ∧
    (handlePredict (PredictOutcome.response stt (Except.ok data)) s).finalState.requestState = RequestState.Succeeded := by
  refine ⟨?_, ?_, ?_, ?_⟩ <;>
    simp [handlePredict, him, hne, hok, doneSuccess, loadingState,
      AppState.requestState, hdata]

/-- Witness for C7 at a 200 response carrying the canned Eczema body. -/
theorem C7_success_witness :
    sImg.imageSrc = some "data:image/png;base64,AQID" ∧
    "data:image/png;base64,AQID" ≠ "" ∧
    statusOk 200 = true ∧
    jsIsNull sampleBody = false ∧
    ((handlePredict (PredictOutcome.response 200 (Except.ok sampleBody)) sImg).finalState.predictionResult = sampleBody ∧
    (handlePredict (PredictOutcome.response 200 (Except.ok sampleBody)) sImg).finalState.error = none ∧
    (handlePredict (PredictOutcome.response 200 (Except.ok sampleBody)) sImg).finalState.isLoading = false ∧
    (handlePredict (PredictOutcome.response 200 (Except.ok sampleBody)) sImg).finalState.requestState = RequestState.Succeeded) :=
  ⟨rfl, by decide, rfl, rfl,
    C7_success_stores_parsed_body sImg "data:image/png;base64,AQID" 200 sampleBody
      rfl (by decide) rfl rfl⟩

/-- C7 counterexample: the backend answers 200 with the JSON body `null`;
the run is successful in the claim's sense, the body is stored, yet the
derived RequestState is Idle, not Succeeded, because the stored value is the
absent `null`. -/
theorem C7_counterexample_null_body :
    statusOk 200 = true ∧
    (handlePredict (PredictOutcome.response 200 (Except.ok Js.null)) sImg).finalState.predictionResult = Js.null ∧
    (handlePredict (PredictOutcome.response 200 (Except.ok Js.null)) sImg).finalState.error = none ∧
    (handlePredict (PredictOutcome.response 200 (Except.ok Js.null)) sImg).finalState.requestState = RequestState.Idle :=
  ⟨rfl, rfl, rfl, rfl⟩
